import Mathlib

/-!
Verification development for the Bhutanese Legal Stamp Applicator.

The application lets a user place one rectangular stamp per PDF page over a
rendered preview and export a PDF with the stamps composited.  We embed the
state and the operations of the two source modules:

* the Stamp record and the page-number → Stamp mapping (types module);
* drag / resize pointer handlers of the interactive overlay (PdfEditor);
* the application controller: file selection, stamp toggling, page
  navigation, and the export pipeline with its pixel-to-point conversion
  (App.tsx, handleFileChange / handleAddOrRemoveStamp / updateStamp /
  handleDownload).

Geometry is embedded in exact rational arithmetic (the source uses JS
numbers).  The JS object keyed by numeric page numbers iterates its keys in
ascending numeric order, so it is embedded as an association list kept
sorted by key; `sortedState` is that representation invariant.
-/

/-- The Stamp record of the types module: top-left offset `x`,`y`, box size
`width`,`height` in on-screen pixels, and the `isPlaced` visibility flag. -/
structure Stamp where
  x : ℚ
  y : ℚ
  width : ℚ
  height : ℚ
  isPlaced : Bool
deriving DecidableEq, Repr

/-- StampState: the mapping from 1-based page number to Stamp, embedded as
an association list (JS object with numeric keys). -/
abbrev StampState := List (Nat × Stamp)

/-- Key lookup in the mapping: the JS read stamps[page]. -/
def getStamp : StampState → Nat → Option Stamp
  | [], _ => none
  | (q, t) :: rest, p => if p = q then some t else getStamp rest p

/-- Key insertion/replacement in the mapping, keeping keys sorted: the JS
write newStamps[page] = newStamp (numeric keys iterate in ascending
order, so the object is canonically ordered). -/
def setStamp : StampState → Nat → Stamp → StampState
  | [], p, st => [(p, st)]
  | (q, t) :: rest, p, st =>
    if p < q then (p, st) :: (q, t) :: rest
    else if p = q then (p, st) :: rest
    else (q, t) :: setStamp rest p st

/-- Key deletion: the JS delete newStamps[page]. -/
def removeStamp : StampState → Nat → StampState
  | [], _ => []
  | (q, t) :: rest, p => if p = q then removeStamp rest p else (q, t) :: removeStamp rest p

/-- updateStamp of App.tsx: copy the mapping, then set the page's entry when
a stamp is given and delete it when null is given. -/
def updateStamp (s : StampState) (page : Nat) (newStamp : Option Stamp) : StampState :=
  match newStamp with
  | some st => setStamp s page st
  | none => removeStamp s page

/-- The default stamp created by handleAddOrRemoveStamp in App.tsx. -/
def defaultStamp : Stamp :=
  { x := 100, y := 100, width := 120, height := 120, isPlaced := true }

/-- handleAddOrRemoveStamp of App.tsx: remove the active page's stamp when
present, otherwise create the default one. -/
def handleAddOrRemoveStamp (s : StampState) (currentPage : Nat) : StampState :=
  match getStamp s currentPage with
  | some _ => updateStamp s currentPage none
  | none => updateStamp s currentPage (some defaultStamp)

/-- Representation invariant of the JS object: keys strictly ascending. -/
def sortedState (s : StampState) : Prop :=
  List.Pairwise (fun a b => a.1 < b.1) s

instance (s : StampState) : Decidable (sortedState s) := by
  unfold sortedState; infer_instance

/-- Every stamp present in the mapping has its isPlaced flag set. -/
def allPlaced (s : StampState) : Prop :=
  ∀ e ∈ s, e.2.isPlaced = true

instance (s : StampState) : Decidable (allPlaced s) := by
  unfold allPlaced; infer_instance

/-- handleStampMouseDown of PdfEditor: the grab offset captured at
pointer-down, pointer coordinates minus the stamp's top-left corner. -/
def handleStampMouseDown (st : Stamp) (cx cy : ℚ) : ℚ × ℚ :=
  (cx - st.x, cy - st.y)

/-- The dragging branch of handleMouseMove in PdfEditor: new position is the
pointer position relative to the container minus the grab offset; the other
fields are spread from the current stamp. -/
def dragUpdate (st : Stamp) (cx cy ox oy : ℚ) : Stamp :=
  { st with x := cx - ox, y := cy - oy }

/-- The resizing branch of handleMouseMove in PdfEditor: candidate width and
height floored at 50, aspect ratio taken from the current stamp, final width
the larger of candidate width and candidate height times the ratio, height
derived by dividing by the ratio. -/
def resizeUpdate (st : Stamp) (cx cy : ℚ) : Stamp :=
  let newWidth := max 50 (cx - st.x)
  let newHeight := max 50 (cy - st.y)
  let aspectRatio := st.width / st.height
  { st with
    width := max newWidth (newHeight * aspectRatio),
    height := max newWidth (newHeight * aspectRatio) / aspectRatio }

/-- Per-page geometry consulted by the export pipeline: the page's intrinsic
size from the mutation library's page.getSize(), and the rasterization
library's viewport width at scale 1. -/
structure PageGeom where
  pageWidth : ℚ
  pageHeight : ℚ
  renderedWidth : ℚ
deriving DecidableEq, Repr

/-- The rectangle and opacity passed to page.drawImage by the export loop. -/
structure DrawnRect where
  x : ℚ
  y : ℚ
  width : ℚ
  height : ℚ
  opacity : ℚ
deriving DecidableEq, Repr

/-- The body of the export loop in handleDownload (App.tsx lines 99-125):
scale = renderedPageWidth / pageWidth, stamp geometry divided by scale, and
the Y coordinate flipped from the top-left to the bottom-left origin. -/
def exportRect (g : PageGeom) (st : Stamp) : DrawnRect :=
  let scale := g.renderedWidth / g.pageWidth
  let stampWidthPoints := st.width / scale
  let stampHeightPoints := st.height / scale
  let xPoints := st.x / scale
  let yPoints := g.pageHeight - (st.y / scale) - stampHeightPoints
  { x := xPoints, y := yPoints, width := stampWidthPoints,
    height := stampHeightPoints, opacity := 0.85 }

/-- The export loop: one drawImage call per page present in StampState. -/
def exportPages (geom : Nat → PageGeom) : StampState → List (Nat × DrawnRect)
  | [] => []
  | (p, st) :: rest => (p, exportRect (geom p) st) :: exportPages geom rest

/-- Lookup of the rectangle drawn on a given page by the export loop. -/
def lookupRect : List (Nat × DrawnRect) → Nat → Option DrawnRect
  | [], _ => none
  | (q, r) :: rest, p => if p = q then some r else lookupRect rest p

/-- The controller's status enum. -/
inductive Status
  | idle
  | loading
  | ready
  | processing
deriving DecidableEq, Repr

/-- The selected file, as the controller sees it: name and declared type. -/
structure FileMeta where
  name : String
  type : String
deriving DecidableEq, Repr

/-- The parsed preview document handle, reduced to what the controller
reads from it. -/
structure PdfInfo where
  numPages : Nat
deriving DecidableEq, Repr

/-- The controller's state: selected file, parsed preview handle, current
page, per-page stamps, status, and the user-visible error message. -/
structure AppState where
  file : Option FileMeta
  pdfDoc : Option PdfInfo
  currentPage : Nat
  stamps : StampState
  status : Status
  error : Option String
deriving DecidableEq, Repr

/-- Outcome of the asynchronous document load in handleFileChange. -/
inductive LoadOutcome
  | success (doc : PdfInfo)
  | failure
deriving DecidableEq, Repr

/-- Outcome of the asynchronous PDF work in handleDownload. -/
inductive ExportOutcome
  | success
  | failure
deriving DecidableEq, Repr

def msgInvalidFile : String := "Please select a valid PDF file."

def msgLoadError : String := "Failed to load the PDF. Please try a different file."

def msgNeedStamp : String := "Please add at least one stamp before downloading."

def msgExportError : String := "An error occurred while creating the stamped PDF."

/-- handleFileChange of App.tsx: accept only a file declared as
application/pdf; on acceptance clear error, enter loading, reset document,
stamps and page, then store the parsed handle on success or reset with an
error on failure; otherwise only set the error message. -/
def handleFileChange (st : AppState) (selected : Option FileMeta)
    (load : LoadOutcome) : AppState :=
  match selected with
  | some f =>
    if f.type = "application/pdf" then
      let st1 : AppState :=
        { st with error := none, status := Status.loading, file := some f,
                  pdfDoc := none, stamps := [], currentPage := 1 }
      match load with
      | LoadOutcome.success doc =>
        { st1 with pdfDoc := some doc, status := Status.ready }
      | LoadOutcome.failure =>
        { st1 with error := some msgLoadError, status := Status.idle,
                   file := none }
    else { st with error := some msgInvalidFile }
  | none => { st with error := some msgInvalidFile }

/-- handleDownload of App.tsx.  Returns the new state, whether a download
was initiated, and the rectangles drawn when the PDF work succeeded.  The
guard rejects a missing file or an empty mapping; otherwise the error is
cleared, status becomes processing, the export runs, a failure is caught
into the generic message, and the finally block restores status ready. -/
def handleDownload (geom : Nat → PageGeom) (st : AppState)
    (outcome : ExportOutcome) : AppState × Bool × Option (List (Nat × DrawnRect)) :=
  if st.file.isNone || st.stamps.isEmpty then
    ({ st with error := some msgNeedStamp }, false, none)
  else
    let st1 : AppState := { st with error := none, status := Status.processing }
    match outcome with
    | ExportOutcome.success =>
      ({ st1 with status := Status.ready }, true, some (exportPages geom st.stamps))
    | ExportOutcome.failure =>
      ({ st1 with error := some msgExportError, status := Status.ready }, false, none)

/-- The previous-page button: Math.max(1, p - 1). -/
def prevPage (p : Nat) : Nat := max 1 (p - 1)

/-- The next-page button: Math.min(numPages, p + 1). -/
def nextPage (numPages p : Nat) : Nat := min numPages (p + 1)

/-- onSelectPage: setCurrentPage(pageNumber) for a rendered page number. -/
def selectPage (q : Nat) : Nat := q

example : getStamp [(1, defaultStamp)] 1 = some defaultStamp := rfl
example : (50 : ℚ) ≤ 120 := by decide
example : handleAddOrRemoveStamp [] 1 = [(1, defaultStamp)] := by decide
example :
    handleAddOrRemoveStamp (handleAddOrRemoveStamp [(1, { defaultStamp with x := 200 })] 1) 1
      = [(1, defaultStamp)] := by decide
example :
    exportRect { pageWidth := 612, pageHeight := 792, renderedWidth := 1224 } defaultStamp
      = { x := 50, y := 682, width := 60, height := 60, opacity := 0.85 } := by
  norm_num [exportRect, defaultStamp]

/-! ### Helper lemmas about the page → stamp mapping -/

theorem getStamp_setStamp_self (s : StampState) (p : Nat) (st : Stamp) :
    getStamp (setStamp s p st) p = some st := by
  induction s with
  | nil => simp [setStamp, getStamp]
  | cons e rest ih =>
    obtain ⟨q, t⟩ := e
    by_cases h1 : p < q
    · simp [setStamp, getStamp, h1]
    · by_cases h2 : p = q
      · simp [setStamp, getStamp, h1, h2]
      · simp [setStamp, getStamp, h1, h2, ih]

theorem getStamp_setStamp_ne (s : StampState) (p q : Nat) (st : Stamp)
    (h : q ≠ p) : getStamp (setStamp s p st) q = getStamp s q := by
  induction s with
  | nil => simp [setStamp, getStamp, h]
  | cons e rest ih =>
    obtain ⟨q0, t⟩ := e
    by_cases h1 : p < q0
    · simp [setStamp, getStamp, h1, h]
    · by_cases h2 : p = q0
      · subst h2
        simp [setStamp, getStamp, h1, h]
      · by_cases h3 : q = q0
        · simp [setStamp, getStamp, h1, h2, h3]
        · simp [setStamp, getStamp, h1, h2, h3, ih]

theorem getStamp_removeStamp_self (s : StampState) (p : Nat) :
    getStamp (removeStamp s p) p = none := by
  induction s with
  | nil => simp [removeStamp, getStamp]
  | cons e rest ih =>
    obtain ⟨q, t⟩ := e
    by_cases h1 : p = q
    · subst h1
      simp [removeStamp, ih]
    · simp [removeStamp, getStamp, h1, ih]

theorem getStamp_removeStamp_ne (s : StampState) (p q : Nat)
    (h : q ≠ p) : getStamp (removeStamp s p) q = getStamp s q := by
  induction s with
  | nil => simp [removeStamp]
  | cons e rest ih =>
    obtain ⟨q0, t⟩ := e
    by_cases h1 : p = q0
    · subst h1
      simp [removeStamp, getStamp, h, ih]
    · by_cases h2 : q = q0
      · simp [removeStamp, getStamp, h1, h2]
      · simp [removeStamp, getStamp, h1, h2, ih]

theorem removeStamp_eq_self (s : StampState) (p : Nat)
    (h : getStamp s p = none) : removeStamp s p = s := by
  induction s with
  | nil => simp [removeStamp]
  | cons e rest ih =>
    obtain ⟨q, t⟩ := e
    by_cases h1 : p = q
    · simp [getStamp, h1] at h
    · simp [getStamp, h1] at h
      simp [removeStamp, h1, ih h]

theorem removeStamp_setStamp (s : StampState) (p : Nat) (st : Stamp) :
    removeStamp (setStamp s p st) p = removeStamp s p := by
  induction s with
  | nil => simp [setStamp, removeStamp]
  | cons e rest ih =>
    obtain ⟨q, t⟩ := e
    by_cases h1 : p < q
    · simp [setStamp, removeStamp, h1]
    · by_cases h2 : p = q
      · simp [setStamp, removeStamp, h1, h2]
      · simp [setStamp, removeStamp, h1, h2, ih]

theorem getStamp_mem (s : StampState) (p : Nat) (st : Stamp)
    (h : getStamp s p = some st) : (p, st) ∈ s := by
  induction s with
  | nil => simp [getStamp] at h
  | cons e rest ih =>
    obtain ⟨q, t⟩ := e
    by_cases h1 : p = q
    · subst h1
      simp [getStamp] at h
      simp [h]
    · simp [getStamp, h1] at h
      simp [ih h]

theorem getStamp_eq_none_of_forall_ne (s : StampState) (p : Nat)
    (h : ∀ e ∈ s, e.1 ≠ p) : getStamp s p = none := by
  induction s with
  | nil => simp [getStamp]
  | cons e rest ih =>
    obtain ⟨q, t⟩ := e
    have hq : q ≠ p := h (q, t) (by simp)
    have hrest : ∀ e ∈ rest, e.1 ≠ p := fun e he => h e (by simp [he])
    simp [getStamp, Ne.symm hq, ih hrest]

theorem setStamp_of_forall_lt (s : StampState) (p : Nat) (st : Stamp)
    (h : ∀ e ∈ s, p < e.1) : setStamp s p st = (p, st) :: s := by
  cases s with
  | nil => simp [setStamp]
  | cons e rest =>
    obtain ⟨q, t⟩ := e
    have hq : p < q := h (q, t) (by simp)
    simp [setStamp, hq]

theorem setStamp_getStamp_self (s : StampState) (p : Nat) (st : Stamp)
    (hs : sortedState s) (h : getStamp s p = some st) : setStamp s p st = s := by
  induction s with
  | nil => simp [getStamp] at h
  | cons e rest ih =>
    obtain ⟨q, t⟩ := e
    rw [sortedState, List.pairwise_cons] at hs
    by_cases h1 : p = q
    · subst h1
      simp [getStamp] at h
      simp [setStamp, h]
    · simp [getStamp, h1] at h
      have hqp : q < p := by
        have hmem := getStamp_mem rest p st h
        have := hs.1 (p, st) hmem
        exact this
      simp [setStamp, Nat.not_lt_of_lt hqp, h1, ih hs.2 h]

theorem setStamp_removeStamp (s : StampState) (p : Nat) (d : Stamp)
    (hs : sortedState s) (st0 : Stamp) (h : getStamp s p = some st0) :
    setStamp (removeStamp s p) p d = setStamp s p d := by
  induction s with
  | nil => simp [getStamp] at h
  | cons e rest ih =>
    obtain ⟨q, t⟩ := e
    rw [sortedState, List.pairwise_cons] at hs
    by_cases h1 : p = q
    · subst h1
      have hrestne : ∀ e ∈ rest, e.1 ≠ p := by
        intro e he
        exact Nat.ne_of_gt (hs.1 e he)
      have hrest : removeStamp rest p = rest :=
        removeStamp_eq_self rest p (getStamp_eq_none_of_forall_ne rest p hrestne)
      have hlt : ∀ e ∈ rest, p < e.1 := fun e he => hs.1 e he
      simp [removeStamp, hrest, setStamp_of_forall_lt rest p d hlt, setStamp]
    · simp [getStamp, h1] at h
      have hqp : q < p := hs.1 (p, st0) (getStamp_mem rest p st0 h)
      simp [removeStamp, h1, setStamp, Nat.not_lt_of_lt hqp, ih hs.2 h]

theorem allPlaced_setStamp (s : StampState) (p : Nat) (st : Stamp)
    (hall : allPlaced s) (hst : st.isPlaced = true) :
    allPlaced (setStamp s p st) := by
  induction s with
  | nil =>
    intro e he
    simp [setStamp] at he
    simp [he, hst]
  | cons e0 rest ih =>
    obtain ⟨q, t⟩ := e0
    have hrest : allPlaced rest := fun e he => hall e (by simp [he])
    have ht : t.isPlaced = true := hall (q, t) (by simp)
    by_cases h1 : p < q
    · intro e he
      simp [setStamp, h1] at he
      rcases he with he | he | he
      · simp [he, hst]
      · simp [he, ht]
      · exact hrest e he
    · by_cases h2 : p = q
      · intro e he
        simp [setStamp, h1, h2] at he
        rcases he with he | he
        · simp [he, hst]
        · exact hrest e he
      · intro e he
        simp [setStamp, h1, h2] at he
        rcases he with he | he
        · simp [he, ht]
        · exact ih hrest e he

theorem allPlaced_removeStamp (s : StampState) (p : Nat)
    (hall : allPlaced s) : allPlaced (removeStamp s p) := by
  induction s with
  | nil => intro e he; simp [removeStamp] at he
  | cons e0 rest ih =>
    obtain ⟨q, t⟩ := e0
    have hrest : allPlaced rest := fun e he => hall e (by simp [he])
    have ht : t.isPlaced = true := hall (q, t) (by simp)
    by_cases h1 : p = q
    · subst h1
      simp [removeStamp]
      exact ih hrest
    · intro e he
      simp [removeStamp, h1] at he
      rcases he with he | he
      · simp [he, ht]
      · exact ih hrest e he

theorem allPlaced_getStamp (s : StampState) (p : Nat) (st : Stamp)
    (hall : allPlaced s) (h : getStamp s p = some st) : st.isPlaced = true :=
  hall (p, st) (getStamp_mem s p st h)

theorem lookupRect_exportPages (geom : Nat → PageGeom) (s : StampState)
    (p : Nat) (st : Stamp) (h : getStamp s p = some st) :
    lookupRect (exportPages geom s) p = some (exportRect (geom p) st) := by
  induction s with
  | nil => simp [getStamp] at h
  | cons e rest ih =>
    obtain ⟨q, t⟩ := e
    by_cases h1 : p = q
    · subst h1
      simp [getStamp] at h
      simp [exportPages, lookupRect, h]
    · simp [getStamp, h1] at h
      simp [exportPages, lookupRect, h1, ih h]

/-! ### Claim theorems -/

/-- Claim C1: for every page number p present in StampState at export time,
the export pipeline draws on page p the rectangle obtained with
scale = renderedWidth / pageWidth: width = stamp.width / scale,
height = stamp.height / scale, x = stamp.x / scale, and
y = pageHeight - (stamp.y / scale) - (stamp.height / scale). -/
theorem C1_export_geometry (geom : Nat → PageGeom) (s : StampState)
    (p : Nat) (st : Stamp) (h : getStamp s p = some st) :
    ∃ r : DrawnRect,
      lookupRect (exportPages geom s) p = some r ∧
      r.width = st.width / ((geom p).renderedWidth / (geom p).pageWidth) ∧
      r.height = st.height / ((geom p).renderedWidth / (geom p).pageWidth) ∧
      r.x = st.x / ((geom p).renderedWidth / (geom p).pageWidth) ∧
      r.y = (geom p).pageHeight - (st.y / ((geom p).renderedWidth / (geom p).pageWidth))
            - (st.height / ((geom p).renderedWidth / (geom p).pageWidth)) :=
  ⟨exportRect (geom p) st, lookupRect_exportPages geom s p st h, rfl, rfl, rfl, rfl⟩

/-- A concrete per-page geometry: US-letter pages rendered at twice their
intrinsic width. -/
def witnessGeom : Nat → PageGeom := fun _ =>
  { pageWidth := 612, pageHeight := 792, renderedWidth := 1224 }

/-- Witness for claim C1 at the default stamp on page 1 of a letter page. -/
theorem C1_export_geometry_witness :
    ∃ r : DrawnRect,
      lookupRect (exportPages witnessGeom [(1, defaultStamp)]) 1 = some r ∧
      r.width = defaultStamp.width / ((witnessGeom 1).renderedWidth / (witnessGeom 1).pageWidth) ∧
      r.height = defaultStamp.height / ((witnessGeom 1).renderedWidth / (witnessGeom 1).pageWidth) ∧
      r.x = defaultStamp.x / ((witnessGeom 1).renderedWidth / (witnessGeom 1).pageWidth) ∧
      r.y = (witnessGeom 1).pageHeight
            - (defaultStamp.y / ((witnessGeom 1).renderedWidth / (witnessGeom 1).pageWidth))
            - (defaultStamp.height / ((witnessGeom 1).renderedWidth / (witnessGeom 1).pageWidth)) :=
  C1_export_geometry witnessGeom [(1, defaultStamp)] 1 defaultStamp rfl

/-- A stamp dragged away from the default position. -/
def movedStamp : Stamp :=
  { x := 200, y := 200, width := 120, height := 120, isPlaced := true }

/-- Claim C2 counterexample: with a moved stamp on page 1, toggling twice
does not return StampState to its prior value — the second toggle recreates
the stamp with the default geometry, not the moved one. -/
theorem C2_toggle_counterexample :
    handleAddOrRemoveStamp (handleAddOrRemoveStamp [(1, movedStamp)] 1) 1
      ≠ [(1, movedStamp)] := by
  decide

/-- Claim C2 (amended): on a canonically ordered StampState, toggling twice
on page p returns the state to exactly its prior value when p has no stamp
or p's stamp equals the default stamp; in general, when p has any stamp,
the double toggle yields the prior state with p's stamp replaced by the
default one. -/
theorem C2_toggle_twice_amended (s : StampState) (p : Nat) (hs : sortedState s) :
    (getStamp s p = none ∨ getStamp s p = some defaultStamp →
      handleAddOrRemoveStamp (handleAddOrRemoveStamp s p) p = s) ∧
    (∀ st, getStamp s p = some st →
      handleAddOrRemoveStamp (handleAddOrRemoveStamp s p) p = setStamp s p defaultStamp) := by
  have hsome : ∀ st, getStamp s p = some st →
      handleAddOrRemoveStamp (handleAddOrRemoveStamp s p) p = setStamp s p defaultStamp := by
    intro st h
    have h1 : handleAddOrRemoveStamp s p = removeStamp s p := by
      simp [handleAddOrRemoveStamp, h, updateStamp]
    have h2 : getStamp (removeStamp s p) p = none := getStamp_removeStamp_self s p
    have h3 : handleAddOrRemoveStamp (removeStamp s p) p
        = setStamp (removeStamp s p) p defaultStamp := by
      simp [handleAddOrRemoveStamp, h2, updateStamp]
    rw [h1, h3, setStamp_removeStamp s p defaultStamp hs st h]
  refine ⟨?_, hsome⟩
  rintro (h | h)
  · have h1 : handleAddOrRemoveStamp s p = setStamp s p defaultStamp := by
      simp [handleAddOrRemoveStamp, h, updateStamp]
    have h2 : getStamp (setStamp s p defaultStamp) p = some defaultStamp :=
      getStamp_setStamp_self s p defaultStamp
    have h3 : handleAddOrRemoveStamp (setStamp s p defaultStamp) p
        = removeStamp (setStamp s p defaultStamp) p := by
      simp [handleAddOrRemoveStamp, h2, updateStamp]
    rw [h1, h3, removeStamp_setStamp s p defaultStamp, removeStamp_eq_self s p h]
  · rw [hsome defaultStamp h, setStamp_getStamp_self s p defaultStamp hs h]

/-- Witness for claim C2 (amended) at a one-page state holding the default
stamp. -/
theorem C2_toggle_twice_amended_witness :
    (getStamp [(1, defaultStamp)] 1 = none ∨
        getStamp [(1, defaultStamp)] 1 = some defaultStamp →
      handleAddOrRemoveStamp (handleAddOrRemoveStamp [(1, defaultStamp)] 1) 1
        = [(1, defaultStamp)]) ∧
    (∀ st, getStamp [(1, defaultStamp)] 1 = some st →
      handleAddOrRemoveStamp (handleAddOrRemoveStamp [(1, defaultStamp)] 1) 1
        = setStamp [(1, defaultStamp)] 1 defaultStamp) :=
  C2_toggle_twice_amended [(1, defaultStamp)] 1 (by decide)

/-- Claim C3: a resize pointer-move on a stamp whose width and height are at
least 50 yields width = max(max(50, pointerX - x), max(50, pointerY - y) *
aspectRatio) and height = width / aspectRatio with aspectRatio =
width / height; hence width and height stay at least 50 and the
width / height ratio is preserved exactly. -/
theorem C3_resize_geometry (st : Stamp) (cx cy : ℚ)
    (hw : 50 ≤ st.width) (hh : 50 ≤ st.height) :
    (resizeUpdate st cx cy).width
        = max (max 50 (cx - st.x)) (max 50 (cy - st.y) * (st.width / st.height)) ∧
    (resizeUpdate st cx cy).height
        = (resizeUpdate st cx cy).width / (st.width / st.height) ∧
    50 ≤ (resizeUpdate st cx cy).width ∧
    50 ≤ (resizeUpdate st cx cy).height ∧
    (resizeUpdate st cx cy).width / (resizeUpdate st cx cy).height
        = st.width / st.height := by
  have hw0 : (0 : ℚ) < st.width := lt_of_lt_of_le (by norm_num) hw
  have hh0 : (0 : ℚ) < st.height := lt_of_lt_of_le (by norm_num) hh
  have hr0 : (0 : ℚ) < st.width / st.height := div_pos hw0 hh0
  have hwidth : (resizeUpdate st cx cy).width
      = max (max 50 (cx - st.x)) (max 50 (cy - st.y) * (st.width / st.height)) := rfl
  have hheight : (resizeUpdate st cx cy).height
      = max (max 50 (cx - st.x)) (max 50 (cy - st.y) * (st.width / st.height))
          / (st.width / st.height) := rfl
  have hM50 : (50 : ℚ)
      ≤ max (max 50 (cx - st.x)) (max 50 (cy - st.y) * (st.width / st.height)) :=
    le_trans (le_max_left 50 (cx - st.x)) (le_max_left _ _)
  have hM0 : (0 : ℚ)
      < max (max 50 (cx - st.x)) (max 50 (cy - st.y) * (st.width / st.height)) :=
    lt_of_lt_of_le (by norm_num) hM50
  have hH50 : (50 : ℚ)
      ≤ max (max 50 (cx - st.x)) (max 50 (cy - st.y) * (st.width / st.height))
          / (st.width / st.height) := by
    have hdiv : max 50 (cy - st.y)
        ≤ max (max 50 (cx - st.x)) (max 50 (cy - st.y) * (st.width / st.height))
            / (st.width / st.height) :=
      (le_div_iff₀ hr0).mpr (le_max_right _ _)
    exact le_trans (le_max_left 50 (cy - st.y)) hdiv
  refine ⟨hwidth, hheight, ?_, ?_, ?_⟩
  · rw [hwidth]; exact hM50
  · rw [hheight]; exact hH50
  · rw [hwidth, hheight, div_div_eq_mul_div, mul_comm, mul_div_assoc,
        div_self (ne_of_gt hM0), mul_one]

/-- Witness for claim C3 at the default stamp with the pointer at
(300, 220). -/
theorem C3_resize_geometry_witness :
    (resizeUpdate defaultStamp 300 220).width
        = max (max 50 (300 - defaultStamp.x))
            (max 50 (220 - defaultStamp.y) * (defaultStamp.width / defaultStamp.height)) ∧
    (resizeUpdate defaultStamp 300 220).height
        = (resizeUpdate defaultStamp 300 220).width
            / (defaultStamp.width / defaultStamp.height) ∧
    50 ≤ (resizeUpdate defaultStamp 300 220).width ∧
    50 ≤ (resizeUpdate defaultStamp 300 220).height ∧
    (resizeUpdate defaultStamp 300 220).width / (resizeUpdate defaultStamp 300 220).height
        = defaultStamp.width / defaultStamp.height :=
  C3_resize_geometry defaultStamp 300 220 (by decide) (by decide)

/-- Claim C4: with a document of at least one page loaded, every navigation
operation preserves 1 ≤ currentPage ≤ numPages: the previous-page button
computes max(1, currentPage - 1), the next-page button computes
min(numPages, currentPage + 1), and selecting a rendered page sets its
1-based number. -/
theorem C4_navigation_invariant (numPages p : Nat)
    (hn : 1 ≤ numPages) (h1 : 1 ≤ p) (h2 : p ≤ numPages) :
    (prevPage p = max 1 (p - 1) ∧ 1 ≤ prevPage p ∧ prevPage p ≤ numPages) ∧
    (nextPage numPages p = min numPages (p + 1) ∧
      1 ≤ nextPage numPages p ∧ nextPage numPages p ≤ numPages) ∧
    (∀ q, 1 ≤ q → q ≤ numPages →
      selectPage q = q ∧ 1 ≤ selectPage q ∧ selectPage q ≤ numPages) := by
  refine ⟨⟨rfl, ?_, ?_⟩, ⟨rfl, ?_, ?_⟩, fun q hq1 hq2 => ⟨rfl, hq1, hq2⟩⟩ <;>
    simp [prevPage, nextPage] <;> omega

/-- Witness for claim C4 on a two-page document at page 2. -/
theorem C4_navigation_invariant_witness :
    (prevPage 2 = max 1 (2 - 1) ∧ 1 ≤ prevPage 2 ∧ prevPage 2 ≤ 2) ∧
    (nextPage 2 2 = min 2 (2 + 1) ∧ 1 ≤ nextPage 2 2 ∧ nextPage 2 2 ≤ 2) ∧
    (∀ q, 1 ≤ q → q ≤ 2 → selectPage q = q ∧ 1 ≤ selectPage q ∧ selectPage q ≤ 2) :=
  C4_navigation_invariant 2 2 (by decide) (by decide) (by decide)

/-- Claim C5: invoking export with no file loaded or an empty StampState
sets the user-visible error message, initiates no download, performs no PDF
work, and leaves status, stamps, file, currentPage (and the document
handle) unchanged. -/
theorem C5_export_guard (geom : Nat → PageGeom) (st : AppState)
    (oc : ExportOutcome) (h : st.file = none ∨ st.stamps = []) :
    handleDownload geom st oc = ({ st with error := some msgNeedStamp }, false, none) ∧
    (handleDownload geom st oc).1.status = st.status ∧
    (handleDownload geom st oc).1.stamps = st.stamps ∧
    (handleDownload geom st oc).1.file = st.file ∧
    (handleDownload geom st oc).1.currentPage = st.currentPage ∧
    (handleDownload geom st oc).1.pdfDoc = st.pdfDoc ∧
    (handleDownload geom st oc).1.error = some msgNeedStamp ∧
    (handleDownload geom st oc).2.1 = false ∧
    (handleDownload geom st oc).2.2 = none := by
  have hguard : (st.file.isNone || st.stamps.isEmpty) = true := by
    rcases h with h | h <;> simp [h]
  have hmain : handleDownload geom st oc
      = ({ st with error := some msgNeedStamp }, false, none) := by
    simp [handleDownload, hguard]
  refine ⟨hmain, ?_, ?_, ?_, ?_, ?_, ?_, ?_, ?_⟩ <;> rw [hmain]

/-- Witness for claim C5 on the initial state with no file selected. -/
theorem C5_export_guard_witness :
    handleDownload witnessGeom
        { file := none, pdfDoc := none, currentPage := 1, stamps := [],
          status := Status.idle, error := none } ExportOutcome.success
      = ({ file := none, pdfDoc := none, currentPage := 1, stamps := [],
           status := Status.idle, error := some msgNeedStamp }, false, none) ∧
    (handleDownload witnessGeom
        { file := none, pdfDoc := none, currentPage := 1, stamps := [],
          status := Status.idle, error := none } ExportOutcome.success).1.status
      = Status.idle ∧
    (handleDownload witnessGeom
        { file := none, pdfDoc := none, currentPage := 1, stamps := [],
          status := Status.idle, error := none } ExportOutcome.success).1.stamps
      = [] ∧
    (handleDownload witnessGeom
        { file := none, pdfDoc := none, currentPage := 1, stamps := [],
          status := Status.idle, error := none } ExportOutcome.success).1.file
      = none ∧
    (handleDownload witnessGeom
        { file := none, pdfDoc := none, currentPage := 1, stamps := [],
          status := Status.idle, error := none } ExportOutcome.success).1.currentPage
      = 1 ∧
    (handleDownload witnessGeom
        { file := none, pdfDoc := none, currentPage := 1, stamps := [],
          status := Status.idle, error := none } ExportOutcome.success).1.pdfDoc
      = none ∧
    (handleDownload witnessGeom
        { file := none, pdfDoc := none, currentPage := 1, stamps := [],
          status := Status.idle, error := none } ExportOutcome.success).1.error
      = some msgNeedStamp ∧
    (handleDownload witnessGeom
        { file := none, pdfDoc := none, currentPage := 1, stamps := [],
          status := Status.idle, error := none } ExportOutcome.success).2.1
      = false ∧
    (handleDownload witnessGeom
        { file := none, pdfDoc := none, currentPage := 1, stamps := [],
          status := Status.idle, error := none } ExportOutcome.success).2.2
      = none :=
  C5_export_guard witnessGeom
    { file := none, pdfDoc := none, currentPage := 1, stamps := [],
      status := Status.idle, error := none } ExportOutcome.success (Or.inl rfl)

/-- Claim C6: when the export pipeline runs and fails, the whole export is
aborted: the single generic error message is set, no download is initiated,
and status returns to ready. -/
theorem C6_export_failure (geom : Nat → PageGeom) (st : AppState)
    (hf : st.file ≠ none) (hs : st.stamps ≠ []) :
    handleDownload geom st ExportOutcome.failure
      = ({ st with error := some msgExportError, status := Status.ready }, false, none) ∧
    (handleDownload geom st ExportOutcome.failure).1.error = some msgExportError ∧
    (handleDownload geom st ExportOutcome.failure).1.status = Status.ready ∧
    (handleDownload geom st ExportOutcome.failure).2.1 = false ∧
    (handleDownload geom st ExportOutcome.failure).2.2 = none := by
  have h1 : st.file.isNone = false := by
    rcases hfile : st.file with _ | f
    · exact absurd hfile hf
    · rfl
  have h2 : st.stamps.isEmpty = false := by
    rcases hst : st.stamps with _ | ⟨e, rest⟩
    · exact absurd hst hs
    · rfl
  have hmain : handleDownload geom st ExportOutcome.failure
      = ({ st with error := some msgExportError, status := Status.ready }, false, none) := by
    simp [handleDownload, h1, h2]
  refine ⟨hmain, ?_, ?_, ?_, ?_⟩ <;> rw [hmain]

/-- Witness for claim C6 on a ready state with one stamp placed. -/
theorem C6_export_failure_witness :
    handleDownload witnessGeom
        { file := some { name := "doc.pdf", type := "application/pdf" },
          pdfDoc := some { numPages := 2 }, currentPage := 1,
          stamps := [(1, defaultStamp)], status := Status.ready, error := none }
        ExportOutcome.failure
      = ({ file := some { name := "doc.pdf", type := "application/pdf" },
           pdfDoc := some { numPages := 2 }, currentPage := 1,
           stamps := [(1, defaultStamp)], status := Status.ready,
           error := some msgExportError }, false, none) ∧
    (handleDownload witnessGeom
        { file := some { name := "doc.pdf", type := "application/pdf" },
          pdfDoc := some { numPages := 2 }, currentPage := 1,
          stamps := [(1, defaultStamp)], status := Status.ready, error := none }
        ExportOutcome.failure).1.error = some msgExportError ∧
    (handleDownload witnessGeom
        { file := some { name := "doc.pdf", type := "application/pdf" },
          pdfDoc := some { numPages := 2 }, currentPage := 1,
          stamps := [(1, defaultStamp)], status := Status.ready, error := none }
        ExportOutcome.failure).1.status = Status.ready ∧
    (handleDownload witnessGeom
        { file := some { name := "doc.pdf", type := "application/pdf" },
          pdfDoc := some { numPages := 2 }, currentPage := 1,
          stamps := [(1, defaultStamp)], status := Status.ready, error := none }
        ExportOutcome.failure).2.1 = false ∧
    (handleDownload witnessGeom
        { file := some { name := "doc.pdf", type := "application/pdf" },
          pdfDoc := some { numPages := 2 }, currentPage := 1,
          stamps := [(1, defaultStamp)], status := Status.ready, error := none }
        ExportOutcome.failure).2.2 = none :=
  C6_export_failure witnessGeom
    { file := some { name := "doc.pdf", type := "application/pdf" },
      pdfDoc := some { numPages := 2 }, currentPage := 1,
      stamps := [(1, defaultStamp)], status := Status.ready, error := none }
    (by simp) (by simp)

/-- Claim C7: selecting a file whose declared type is not application/pdf
sets the user-visible error message and changes nothing else: status, file,
document handle, stamps and current page all keep their prior values. -/
theorem C7_reject_non_pdf (st : AppState) (f : FileMeta) (load : LoadOutcome)
    (h : f.type ≠ "application/pdf") :
    handleFileChange st (some f) load = { st with error := some msgInvalidFile } ∧
    (handleFileChange st (some f) load).status = st.status ∧
    (handleFileChange st (some f) load).file = st.file ∧
    (handleFileChange st (some f) load).pdfDoc = st.pdfDoc ∧
    (handleFileChange st (some f) load).stamps = st.stamps ∧
    (handleFileChange st (some f) load).currentPage = st.currentPage ∧
    (handleFileChange st (some f) load).error = some msgInvalidFile := by
  have hmain : handleFileChange st (some f) load
      = { st with error := some msgInvalidFile } := by
    simp [handleFileChange, h]
  refine ⟨hmain, ?_, ?_, ?_, ?_, ?_, ?_⟩ <;> rw [hmain]

/-- Witness for claim C7: a plain-text file selected on the initial state. -/
theorem C7_reject_non_pdf_witness :
    handleFileChange
        { file := none, pdfDoc := none, currentPage := 1, stamps := [],
          status := Status.idle, error := none }
        (some { name := "notes.txt", type := "text/plain" })
        LoadOutcome.failure
      = { file := none, pdfDoc := none, currentPage := 1, stamps := [],
          status := Status.idle, error := some msgInvalidFile } ∧
    (handleFileChange
        { file := none, pdfDoc := none, currentPage := 1, stamps := [],
          status := Status.idle, error := none }
        (some { name := "notes.txt", type := "text/plain" })
        LoadOutcome.failure).status = Status.idle ∧
    (handleFileChange
        { file := none, pdfDoc := none, currentPage := 1, stamps := [],
          status := Status.idle, error := none }
        (some { name := "notes.txt", type := "text/plain" })
        LoadOutcome.failure).file = none ∧
    (handleFileChange
        { file := none, pdfDoc := none, currentPage := 1, stamps := [],
          status := Status.idle, error := none }
        (some { name := "notes.txt", type := "text/plain" })
        LoadOutcome.failure).pdfDoc = none ∧
    (handleFileChange
        { file := none, pdfDoc := none, currentPage := 1, stamps := [],
          status := Status.idle, error := none }
        (some { name := "notes.txt", type := "text/plain" })
        LoadOutcome.failure).stamps = [] ∧
    (handleFileChange
        { file := none, pdfDoc := none, currentPage := 1, stamps := [],
          status := Status.idle, error := none }
        (some { name := "notes.txt", type := "text/plain" })
        LoadOutcome.failure).currentPage = 1 ∧
    (handleFileChange
        { file := none, pdfDoc := none, currentPage := 1, stamps := [],
          status := Status.idle, error := none }
        (some { name := "notes.txt", type := "text/plain" })
        LoadOutcome.failure).error = some msgInvalidFile :=
  C7_reject_non_pdf
    { file := none, pdfDoc := none, currentPage := 1, stamps := [],
      status := Status.idle, error := none }
    { name := "notes.txt", type := "text/plain" }
    LoadOutcome.failure (by decide)

/-- Claim C8: a drag pointer-move sets the stamp position to the pointer
position relative to the page container minus the grab offset captured at
pointer-down, and changes only x and y: width, height and isPlaced are
untouched. -/
theorem C8_drag_frame (st st0 : Stamp) (cx cy dx dy ox oy : ℚ) :
    (dragUpdate st cx cy ox oy).x = cx - ox ∧
    (dragUpdate st cx cy ox oy).y = cy - oy ∧
    (dragUpdate st cx cy ox oy).width = st.width ∧
    (dragUpdate st cx cy ox oy).height = st.height ∧
    (dragUpdate st cx cy ox oy).isPlaced = st.isPlaced ∧
    (dragUpdate st cx cy (handleStampMouseDown st0 dx dy).1
        (handleStampMouseDown st0 dx dy).2).x = cx - (dx - st0.x) ∧
    (dragUpdate st cx cy (handleStampMouseDown st0 dx dy).1
        (handleStampMouseDown st0 dx dy).2).y = cy - (dy - st0.y) :=
  ⟨rfl, rfl, rfl, rfl, rfl, rfl, rfl⟩

/-- Claim C9: every StampState-modifying operation — toggle, drag update,
resize update, removal — preserves the invariant that every stamp present
in the mapping has isPlaced = true. -/
theorem C9_placed_invariant (s : StampState) (hall : allPlaced s) :
    (∀ p, allPlaced (handleAddOrRemoveStamp s p)) ∧
    (∀ p st cx cy ox oy, getStamp s p = some st →
      allPlaced (updateStamp s p (some (dragUpdate st cx cy ox oy)))) ∧
    (∀ p st cx cy, getStamp s p = some st →
      allPlaced (updateStamp s p (some (resizeUpdate st cx cy)))) ∧
    (∀ p, allPlaced (updateStamp s p none)) := by
  refine ⟨?_, ?_, ?_, ?_⟩
  · intro p
    cases hg : getStamp s p with
    | some st =>
      simp only [handleAddOrRemoveStamp, hg, updateStamp]
      exact allPlaced_removeStamp s p hall
    | none =>
      simp only [handleAddOrRemoveStamp, hg, updateStamp]
      exact allPlaced_setStamp s p defaultStamp hall rfl
  · intro p st cx cy ox oy hg
    exact allPlaced_setStamp s p (dragUpdate st cx cy ox oy) hall
      (allPlaced_getStamp s p st hall hg)
  · intro p st cx cy hg
    exact allPlaced_setStamp s p (resizeUpdate st cx cy) hall
      (allPlaced_getStamp s p st hall hg)
  · intro p
    exact allPlaced_removeStamp s p hall

/-- Witness for claim C9 on the one-stamp state. -/
theorem C9_placed_invariant_witness :
    (∀ p, allPlaced (handleAddOrRemoveStamp [(1, defaultStamp)] p)) ∧
    (∀ p st cx cy ox oy, getStamp [(1, defaultStamp)] p = some st →
      allPlaced (updateStamp [(1, defaultStamp)] p (some (dragUpdate st cx cy ox oy)))) ∧
    (∀ p st cx cy, getStamp [(1, defaultStamp)] p = some st →
      allPlaced (updateStamp [(1, defaultStamp)] p (some (resizeUpdate st cx cy)))) ∧
    (∀ p, allPlaced (updateStamp [(1, defaultStamp)] p none)) :=
  C9_placed_invariant [(1, defaultStamp)] (by decide)

/-- Claim C10: updateStamp on page p leaves every other page's entry
unchanged, whether it inserts, replaces, or deletes p's entry; and deleting
p's entry when p has none returns the very same StampState. -/
theorem C10_update_frame (s : StampState) (p q : Nat) (hne : q ≠ p)
    (ost : Option Stamp) :
    getStamp (updateStamp s p ost) q = getStamp s q ∧
    (getStamp s p = none → updateStamp s p none = s) := by
  constructor
  · cases ost with
    | some st => exact getStamp_setStamp_ne s p q st hne
    | none => exact getStamp_removeStamp_ne s p q hne
  · intro h
    exact removeStamp_eq_self s p h

/-- Witness for claim C10: updating page 1 of the state that only stamps
page 2. -/
theorem C10_update_frame_witness :
    getStamp (updateStamp [(2, defaultStamp)] 1 none) 2
        = getStamp [(2, defaultStamp)] 2 ∧
    (getStamp [(2, defaultStamp)] 1 = none →
      updateStamp [(2, defaultStamp)] 1 none = [(2, defaultStamp)]) :=
  C10_update_frame [(2, defaultStamp)] 1 2 (by decide) none
